import Mathlib

/-!
Shallow embedding of the Adaptus2-orm SQL compilation and migration subsystem.

The query-builder definitions follow `src/core/QueryBuilder.js` (QueryBuilder:
builder methods, `toSQL`, `_buildSelectQuery`, `_buildInsertQuery`,
`_buildUpdateQuery`, `_buildDeleteQuery`, `_buildWhereClause`,
`_buildHavingClause`).  The migration definitions follow
`src/core/MigrationManager.js` (`migrate`, `_getPendingMigrations`,
`rollback`, `reset`, `_compareSchemas`).  JavaScript strings are Lean
`String`s; JS string primitives that do not kernel-reduce in Lean
(`toLowerCase`, `endsWith`, default `Array.sort` comparison) are modelled
char-by-char over `String.data`, which agrees with JS on the ASCII
identifiers these claims concern.
-/

deriving instance DecidableEq for Except

/-- A JavaScript primitive value as it occurs in query payloads and
parameter lists: a string, a number (the claims only use integral numbers),
or `null`. -/
inductive JsVal where
  | str (s : String)
  | num (n : Int)
  | null
  deriving DecidableEq

/-- JS template-literal rendering of a value, as in `${condition.value}`
inside `_buildHavingClause`. -/
def JsVal.render : JsVal → String
  | .str s => s
  | .num n => toString n
  | .null => "null"

/-- The `value` field stored in a where-condition: a scalar for ordinary
operators, an array for `IN` / `NOT IN` (pushed by `whereIn` /
`whereNotIn`). -/
inductive JsArg where
  | single (v : JsVal)
  | arr (vs : List JsVal)
  deriving DecidableEq

/-- The JS `.length` read performed on a condition value by
`_buildWhereClause` (line 416), for non-`null` values: the element count of
an array, the code-unit count of a string (the identifiers here are ASCII,
where JS UTF-16 units and Lean characters agree), and `undefined` (`none`)
for a number, which has no `length` property.  Reading `.length` on the
scalar `null` throws a TypeError in the source; that case is intercepted
before this read (see `whereClauseAux`). -/
def jsLen : JsArg → Option Nat
  | .arr vs => some vs.length
  | .single (.str s) => some s.length
  | .single _ => none

/-- Whether a stored condition value is the scalar `null` — the one value
whose `.length` read throws. -/
def isNullArg : JsArg → Bool
  | .single .null => true
  | _ => false

/-- How many elements `Array(placeholderCount)` creates: `n` elements for a
number `n`, and one element for `undefined` (`Array(undefined)` is the
one-element array `[undefined]`). -/
def effLen : Option Nat → Nat
  | some n => n
  | none => 1

/-- `paramCounter += placeholderCount`, where `none` models `NaN`: adding
`undefined` to a number yields `NaN`, and `NaN` absorbs further sums. -/
def counterAdd : Option Nat → Option Nat → Option Nat
  | some a, some b => some (a + b)
  | _, _ => none

/-- `paramCounter++`; `NaN` stays `NaN`. -/
def counterSucc : Option Nat → Option Nat
  | some a => some (a + 1)
  | none => none

/-- The interpolated text `${paramCounter + i + 1}`: a numeral, or `NaN`
once the counter has been poisoned. -/
def counterText (c : Option Nat) (i : Nat) : String :=
  match c with
  | some a => toString (a + i + 1)
  | none => "NaN"

/-- One entry of `this.whereConditions` (QueryBuilder.js lines 62-160):
field, operator, value, and conjunction keyword (`type` in the source). -/
structure WhereCond where
  field : String
  operator : String
  value : JsArg
  type : String
  deriving DecidableEq

/-- One entry of `this.joinClauses` (lines 162-208). -/
structure JoinClause where
  type : String
  table : String
  firstField : String
  operator : String
  secondField : String
  deriving DecidableEq

/-- One entry of `this.havingConditions` (lines 219-233). -/
structure HavingCond where
  field : String
  operator : String
  value : JsVal
  type : String
  deriving DecidableEq

/-- One entry of `this.orderByFields` (lines 235-241). -/
structure OrderByItem where
  field : String
  direction : String
  deriving DecidableEq

/-- The builder state initialized by `reset()` (QueryBuilder.js lines 7-23).
JS object payloads (`insertData`, `updateData`) are ordered key-value
lists; `null`-initialized fields are `Option`s. -/
structure QueryBuilder where
  queryType : Option String
  tableName : Option String
  selectFields : List String
  whereConditions : List WhereCond
  joinClauses : List JoinClause
  groupByFields : List String
  havingConditions : List HavingCond
  orderByFields : List OrderByItem
  limitValue : Option Int
  offsetValue : Option Int
  insertData : Option (List (String × JsVal))
  updateData : Option (List (String × JsVal))
  params : List JsVal
  databaseType : Option String
  deriving DecidableEq

/-- ASCII-faithful model of `String.prototype.toLowerCase` (Lean's own
`String.toLower` does not kernel-reduce). -/
def jsToLower (s : String) : String := String.mk (s.data.map Char.toLower)

/-- ASCII-faithful model of `String.prototype.toUpperCase`. -/
def jsToUpper (s : String) : String := String.mk (s.data.map Char.toUpper)

/-- JS template interpolation of a possibly-null string (`${this.tableName}`
renders the text `null` when the field was never set). -/
def optStr : Option String → String
  | some s => s
  | none => "null"

/-- `Array.prototype.join(', ')`. -/
def joinComma (l : List String) : String := String.intercalate ", " l

/-- The fresh builder produced by `reset()` (lines 7-23). -/
def QueryBuilder.init : QueryBuilder where
  queryType := none
  tableName := none
  selectFields := ["*"]
  whereConditions := []
  joinClauses := []
  groupByFields := []
  havingConditions := []
  orderByFields := []
  limitValue := none
  offsetValue := none
  insertData := none
  updateData := none
  params := []
  databaseType := none

/-- `database(type)` (lines 25-28): stores the lowercased dialect tag. -/
def QueryBuilder.database (qb : QueryBuilder) (t : String) : QueryBuilder :=
  { qb with databaseType := some (jsToLower t) }

/-- `table(name)` (lines 30-33). -/
def QueryBuilder.table (qb : QueryBuilder) (n : String) : QueryBuilder :=
  { qb with tableName := some n }

/-- `select(fields)` with an array argument (lines 35-43). -/
def QueryBuilder.select (qb : QueryBuilder) (fields : List String) : QueryBuilder :=
  { qb with queryType := some "SELECT", selectFields := fields }

/-- `select()` / `select('*')` (string overload, line 40). -/
def QueryBuilder.selectStar (qb : QueryBuilder) : QueryBuilder :=
  { qb with queryType := some "SELECT", selectFields := ["*"] }

/-- `insert(data)` (lines 45-49). -/
def QueryBuilder.insert (qb : QueryBuilder) (data : List (String × JsVal)) : QueryBuilder :=
  { qb with queryType := some "INSERT", insertData := some data }

/-- `update(data)` (lines 51-55). -/
def QueryBuilder.update (qb : QueryBuilder) (data : List (String × JsVal)) : QueryBuilder :=
  { qb with queryType := some "UPDATE", updateData := some data }

/-- `delete()` (lines 57-60). -/
def QueryBuilder.del (qb : QueryBuilder) : QueryBuilder :=
  { qb with queryType := some "DELETE" }

/-- Three-argument `where(field, operator, value)` (lines 82-88): records the
condition with conjunction `AND` and pushes the value onto `this.params`.
The two-argument overload normalizes to this with operator `=`. -/
def QueryBuilder.whereOp (qb : QueryBuilder) (f op : String) (v : JsVal) : QueryBuilder :=
  { qb with whereConditions := qb.whereConditions ++ [⟨f, op, .single v, "AND"⟩],
            params := qb.params ++ [v] }

/-- `orWhere(field, operator, value)` (lines 93-107): conjunction `OR`. -/
def QueryBuilder.orWhereOp (qb : QueryBuilder) (f op : String) (v : JsVal) : QueryBuilder :=
  { qb with whereConditions := qb.whereConditions ++ [⟨f, op, .single v, "OR"⟩],
            params := qb.params ++ [v] }

/-- `whereIn(field, values)` (lines 109-118): stores the array and spreads
every element onto `this.params`. -/
def QueryBuilder.whereIn (qb : QueryBuilder) (f : String) (vs : List JsVal) : QueryBuilder :=
  { qb with whereConditions := qb.whereConditions ++ [⟨f, "IN", .arr vs, "AND"⟩],
            params := qb.params ++ vs }

/-- `whereNotIn(field, values)` (lines 120-129). -/
def QueryBuilder.whereNotIn (qb : QueryBuilder) (f : String) (vs : List JsVal) : QueryBuilder :=
  { qb with whereConditions := qb.whereConditions ++ [⟨f, "NOT IN", .arr vs, "AND"⟩],
            params := qb.params ++ vs }

/-- `whereLike(field, pattern)` (lines 131-140). -/
def QueryBuilder.whereLike (qb : QueryBuilder) (f : String) (p : JsVal) : QueryBuilder :=
  { qb with whereConditions := qb.whereConditions ++ [⟨f, "LIKE", .single p, "AND"⟩],
            params := qb.params ++ [p] }

/-- `whereNull(field)` (lines 142-150): no parameter is pushed. -/
def QueryBuilder.whereNull (qb : QueryBuilder) (f : String) : QueryBuilder :=
  { qb with whereConditions := qb.whereConditions ++ [⟨f, "IS NULL", .single .null, "AND"⟩] }

/-- `whereNotNull(field)` (lines 152-160). -/
def QueryBuilder.whereNotNull (qb : QueryBuilder) (f : String) : QueryBuilder :=
  { qb with whereConditions := qb.whereConditions ++ [⟨f, "IS NOT NULL", .single .null, "AND"⟩] }

/-- `join(table, firstField, operator, secondField)` (lines 162-176); the
three-argument overload normalizes the operator to `=`. -/
def QueryBuilder.joinInner (qb : QueryBuilder) (t f1 op f2 : String) : QueryBuilder :=
  { qb with joinClauses := qb.joinClauses ++ [⟨"INNER", t, f1, op, f2⟩] }

/-- `leftJoin` (lines 178-192). -/
def QueryBuilder.joinLeft (qb : QueryBuilder) (t f1 op f2 : String) : QueryBuilder :=
  { qb with joinClauses := qb.joinClauses ++ [⟨"LEFT", t, f1, op, f2⟩] }

/-- `rightJoin` (lines 194-208). -/
def QueryBuilder.joinRight (qb : QueryBuilder) (t f1 op f2 : String) : QueryBuilder :=
  { qb with joinClauses := qb.joinClauses ++ [⟨"RIGHT", t, f1, op, f2⟩] }

/-- `groupBy(fields)` with an array argument (lines 210-217). -/
def QueryBuilder.groupBy (qb : QueryBuilder) (fields : List String) : QueryBuilder :=
  { qb with groupByFields := fields }

/-- Three-argument `having(field, operator, value)` (lines 219-233): records
the condition and, like `where`, pushes the value onto `this.params`. -/
def QueryBuilder.havingOp (qb : QueryBuilder) (f op : String) (v : JsVal) : QueryBuilder :=
  { qb with havingConditions := qb.havingConditions ++ [⟨f, op, v, "AND"⟩],
            params := qb.params ++ [v] }

/-- `orderBy(field, direction)` (lines 235-241). -/
def QueryBuilder.orderBy (qb : QueryBuilder) (f dir : String) : QueryBuilder :=
  { qb with orderByFields := qb.orderByFields ++ [⟨f, jsToUpper dir⟩] }

/-- `limit(value)` (lines 243-246); the claims pass integers, so the
`parseInt` coercion is the identity. -/
def QueryBuilder.limit (qb : QueryBuilder) (n : Int) : QueryBuilder :=
  { qb with limitValue := some n }

/-- `offset(value)` (lines 248-251). -/
def QueryBuilder.offset (qb : QueryBuilder) (n : Int) : QueryBuilder :=
  { qb with offsetValue := some n }

/-- The dialect tag as scrutinized by the `switch (this.databaseType)`
statements; an unset tag renders like JS `null`, which matches no case. -/
def QueryBuilder.dbName (qb : QueryBuilder) : String := optStr qb.databaseType

/-- The compiled `{ sql, params }` pair returned by the `_build*Query`
methods. -/
structure SqlResult where
  sql : String
  params : List JsVal
  deriving DecidableEq

/-- One scalar placeholder at the current running count (`_buildWhereClause`
lines 437-451). -/
def placeholderFor (db : String) (paramCounter : Option Nat) : String :=
  if db = "mysql" then "?"
  else if db = "postgresql" then "$" ++ counterText paramCounter 0
  else if db = "snowflake" then ":" ++ counterText paramCounter 0
  else "?"

/-- The placeholder list of an `IN` / `NOT IN` expansion (lines 415-431),
`count` being the number of elements `Array(placeholderCount)` produced. -/
def inPlaceholders (db : String) (count : Nat) (paramCounter : Option Nat) : String :=
  if db = "mysql" then joinComma (List.replicate count "?")
  else if db = "postgresql" then
    joinComma ((List.range count).map (fun i => "$" ++ counterText paramCounter i))
  else if db = "snowflake" then
    joinComma ((List.range count).map (fun i => ":" ++ counterText paramCounter i))
  else joinComma (List.replicate count "?")

/-- How many placeholders `_buildWhereClause` emits for one condition: for
`IN` / `NOT IN`, the element count of `Array(condition.value.length)` — the
array length for an array value, the string length for a scalar string, one
for a scalar number (`Array(undefined)` has one element); zero for the
null-test operators; one otherwise.  (An `IN` / `NOT IN` condition over the
scalar `null` throws before emitting anything, so its count is never
reached in a successful compile.) -/
def condMarkerCount (c : WhereCond) : Nat :=
  if c.operator = "IN" ∨ c.operator = "NOT IN" then effLen (jsLen c.value)
  else if c.operator = "IS NULL" ∨ c.operator = "IS NOT NULL" then 0
  else 1

/-- The loop of `_buildWhereClause` (lines 406-459): `index` drives the
leading conjunction keyword, `paramCounter` is the function-local running
counter that starts at 0 on every call (`none` once poisoned to `NaN` by an
`IN` / `NOT IN` condition over a scalar number).  Reading
`condition.value.length` on the scalar `null` throws a TypeError, which
escapes `toSQL`; it is modelled as `.error`. -/
def whereClauseAux (db : String) : List WhereCond → Nat → Option Nat → Except String String
  | [], _, _ => .ok ""
  | c :: rest, index, paramCounter =>
    let lead := if 0 < index then " " ++ c.type ++ " " else ""
    if c.operator = "IN" ∨ c.operator = "NOT IN" then
      if isNullArg c.value then
        .error "TypeError: Cannot read properties of null (reading 'length')"
      else
        (whereClauseAux db rest (index + 1) (counterAdd paramCounter (jsLen c.value))).map
          (fun s => lead ++ c.field ++ " " ++ c.operator ++ " ("
            ++ inPlaceholders db (effLen (jsLen c.value)) paramCounter ++ ")" ++ s)
    else if c.operator = "IS NULL" ∨ c.operator = "IS NOT NULL" then
      (whereClauseAux db rest (index + 1) paramCounter).map
        (fun s => lead ++ c.field ++ " " ++ c.operator ++ s)
    else
      (whereClauseAux db rest (index + 1) (counterSucc paramCounter)).map
        (fun s => lead ++ c.field ++ " " ++ c.operator ++ " "
          ++ placeholderFor db paramCounter ++ s)

/-- Whether one recorded condition is an `IN` / `NOT IN` over the scalar
`null` — the condition whose rendering throws. -/
def condNullIn (c : WhereCond) : Bool :=
  (c.operator == "IN" || c.operator == "NOT IN") && isNullArg c.value

/-- Whether rendering a condition list throws: the loop reaches every
condition unless an earlier one throws, so the render fails exactly when
some condition is an `IN` / `NOT IN` over the scalar `null`. -/
def whereThrows (conds : List WhereCond) : Bool := conds.any condNullIn

/-- `_buildWhereClause()` as called from the query builders: a fresh
`paramCounter = 0` on every invocation. -/
def buildWhereClause (qb : QueryBuilder) : Except String String :=
  whereClauseAux qb.dbName qb.whereConditions 0 (some 0)

/-- The `if (this.whereConditions.length > 0)` guard shared by the select,
update and delete builders: `_buildWhereClause` runs — and can throw — only
when at least one condition was recorded. -/
def renderedWhere (qb : QueryBuilder) : Except String String :=
  if 0 < qb.whereConditions.length then buildWhereClause qb else .ok ""

/-- The loop body of `_buildHavingClause` (lines 461-470): the condition
value is interpolated literally (`${condition.value}`), with no dialect
dispatch and no placeholder. -/
def havingClauseAux : List HavingCond → Nat → String
  | [], _ => ""
  | c :: rest, index =>
    (if 0 < index then " " ++ c.type ++ " " else "")
      ++ c.field ++ " " ++ c.operator ++ " " ++ c.value.render
      ++ havingClauseAux rest (index + 1)

/-- `_buildHavingClause()`. -/
def buildHavingClause (qb : QueryBuilder) : String := havingClauseAux qb.havingConditions 0

/-- The `LIMIT` / `OFFSET` tail of `_buildSelectQuery` (lines 307-313):
`OFFSET` is only emitted inside the `limitValue !== null` branch. -/
def limitOffsetFragment (l o : Option Int) : String :=
  match l with
  | none => ""
  | some n =>
    " LIMIT " ++ toString n
      ++ (match o with
          | none => ""
          | some m => " OFFSET " ++ toString m)

/-- `_buildSelectQuery` (lines 272-319) up to but excluding the
`LIMIT` / `OFFSET` tail, given the rendered where clause `w` (consulted
only when a condition was recorded, matching the source's guard). -/
def selectCore (qb : QueryBuilder) (w : String) : String :=
  let q := "SELECT " ++ joinComma qb.selectFields ++ " FROM " ++ optStr qb.tableName
  let q := qb.joinClauses.foldl
    (fun acc j => acc ++ " " ++ j.type ++ " JOIN " ++ j.table ++ " ON "
      ++ j.firstField ++ " " ++ j.operator ++ " " ++ j.secondField) q
  let q := if qb.whereConditions.length > 0 then q ++ " WHERE " ++ w else q
  let q := if qb.groupByFields.length > 0 then q ++ " GROUP BY " ++ joinComma qb.groupByFields else q
  let q := if qb.havingConditions.length > 0 then q ++ " HAVING " ++ buildHavingClause qb else q
  if qb.orderByFields.length > 0 then
    q ++ " ORDER BY " ++ joinComma (qb.orderByFields.map (fun i => i.field ++ " " ++ i.direction))
  else q

/-- `_buildSelectQuery`: the params are `this.params` verbatim; a TypeError
thrown while rendering the where clause escapes. -/
def buildSelectQuery (qb : QueryBuilder) : Except String SqlResult :=
  (renderedWhere qb).map fun w =>
    { sql := selectCore qb w ++ limitOffsetFragment qb.limitValue qb.offsetValue,
      params := qb.params }

/-- The `VALUES (...)` placeholder list of `_buildInsertQuery`
(lines 329-342): the counter restarts at 1 for the payload. -/
def insertPlaceholders (db : String) (n : Nat) : String :=
  if db = "mysql" then joinComma (List.replicate n "?")
  else if db = "postgresql" then
    joinComma ((List.range n).map (fun i => "$" ++ toString (i + 1)))
  else if db = "snowflake" then
    joinComma ((List.range n).map (fun i => ":" ++ toString (i + 1)))
  else joinComma (List.replicate n "?")

/-- `_buildInsertQuery` (lines 321-350): throws only when `insertData` is
absent (`null`); an empty object is truthy in JS and passes the check. -/
def buildInsertQuery (qb : QueryBuilder) : Except String SqlResult :=
  match qb.insertData with
  | none => .error "Insert data must be specified"
  | some data =>
    let fields := data.map Prod.fst
    let values := data.map Prod.snd
    .ok { sql := "INSERT INTO " ++ optStr qb.tableName ++ " (" ++ joinComma fields
            ++ ") VALUES (" ++ insertPlaceholders qb.dbName fields.length ++ ")",
          params := values }

/-- The `SET` clause of `_buildUpdateQuery` (lines 360-373): the numbered
markers restart at 1 over the payload fields. -/
def setClauseFor (db : String) (fields : List String) : String :=
  if db = "mysql" then joinComma (fields.map (fun f => f ++ " = ?"))
  else if db = "postgresql" then
    joinComma (fields.enum.map (fun p => p.2 ++ " = $" ++ toString (p.1 + 1)))
  else if db = "snowflake" then
    joinComma (fields.enum.map (fun p => p.2 ++ " = :" ++ toString (p.1 + 1)))
  else joinComma (fields.map (fun f => f ++ " = ?"))

/-- `_buildUpdateQuery` (lines 352-388): params are the payload values
followed by `this.params`. -/
def buildUpdateQuery (qb : QueryBuilder) : Except String SqlResult :=
  match qb.updateData with
  | none => .error "Update data must be specified"
  | some data =>
    let fields := data.map Prod.fst
    let values := data.map Prod.snd
    let core := "UPDATE " ++ optStr qb.tableName ++ " SET " ++ setClauseFor qb.dbName fields
    (renderedWhere qb).map fun w =>
      { sql := if qb.whereConditions.length > 0 then core ++ " WHERE " ++ w else core,
        params := values ++ qb.params }

/-- `_buildDeleteQuery` (lines 390-404); a TypeError from the where clause
escapes. -/
def buildDeleteQuery (qb : QueryBuilder) : Except String SqlResult :=
  (renderedWhere qb).map fun w =>
    { sql := if qb.whereConditions.length > 0 then
               "DELETE FROM " ++ optStr qb.tableName ++ " WHERE " ++ w
             else "DELETE FROM " ++ optStr qb.tableName,
      params := qb.params }

/-- JS falsiness of the dialect field: `!this.databaseType` is true when the
field was never set or was set to the empty string. -/
def isFalsyStr : Option String → Bool
  | none => true
  | some s => s == ""

/-- `toSQL()` (lines 253-270): checks only the dialect for presence, then
dispatches on the operation kind; the `default` arm throws.  Failures are
plain `Error`s modelled as `Except.error` with the thrown message. -/
def QueryBuilder.toSQL (qb : QueryBuilder) : Except String SqlResult :=
  if isFalsyStr qb.databaseType then
    .error "Database type must be specified using .database() method"
  else if qb.queryType = some "SELECT" then buildSelectQuery qb
  else if qb.queryType = some "INSERT" then buildInsertQuery qb
  else if qb.queryType = some "UPDATE" then buildUpdateQuery qb
  else if qb.queryType = some "DELETE" then buildDeleteQuery qb
  else .error "Query type must be specified"

/-- `toSQL()` with the builder state threaded explicitly: no statement in
`toSQL` or the `_build*` helpers assigns to `this`, so the state available
after the call is the state before it. -/
def QueryBuilder.toSQLSt (qb : QueryBuilder) : Except String (SqlResult × QueryBuilder) :=
  match qb.toSQL with
  | .ok r => .ok (r, qb)
  | .error e => .error e

/-- One of the builder mutators that record conditions, used to quantify
over all intents the fluent API can produce on top of a base intent.  The
two-argument overloads of `where` / `orWhere` / `having` normalize to the
three-argument forms, so the three-argument constructors cover them. -/
inductive BuildOp where
  | whereOp (f op : String) (v : JsVal)
  | orWhereOp (f op : String) (v : JsVal)
  | whereIn (f : String) (vs : List JsVal)
  | whereNotIn (f : String) (vs : List JsVal)
  | whereLike (f : String) (p : JsVal)
  | whereNull (f : String)
  | whereNotNull (f : String)
  | havingOp (f op : String) (v : JsVal)
  deriving DecidableEq

/-- Dispatch a recorded builder call onto the state. -/
def applyOp (qb : QueryBuilder) : BuildOp → QueryBuilder
  | .whereOp f op v => qb.whereOp f op v
  | .orWhereOp f op v => qb.orWhereOp f op v
  | .whereIn f vs => qb.whereIn f vs
  | .whereNotIn f vs => qb.whereNotIn f vs
  | .whereLike f p => qb.whereLike f p
  | .whereNull f => qb.whereNull f
  | .whereNotNull f => qb.whereNotNull f
  | .havingOp f op v => qb.havingOp f op v

/-- Apply a sequence of recorded builder calls left to right. -/
def applyOps (qb : QueryBuilder) (ops : List BuildOp) : QueryBuilder :=
  ops.foldl applyOp qb

/-- The values one builder call pushes onto `this.params`. -/
def opParamVals : BuildOp → List JsVal
  | .whereOp _ _ v => [v]
  | .orWhereOp _ _ v => [v]
  | .whereIn _ vs => vs
  | .whereNotIn _ vs => vs
  | .whereLike _ p => [p]
  | .whereNull _ => []
  | .whereNotNull _ => []
  | .havingOp _ _ v => [v]

/-- Whether the call is `having` (the one condition recorder whose value is
never parameterized in the emitted SQL). -/
def isHaving : BuildOp → Bool
  | .havingOp _ _ _ => true
  | _ => false

/-- The values a builder call contributes to the where clause's parameter
slots (everything `opParamVals` pushes except `having` values). -/
def opWhereVals (o : BuildOp) : List JsVal :=
  if isHaving o then [] else opParamVals o

/-- Whether a call's parameter pushes match the placeholders the where
clause will emit for it.  Every call is balanced except `where` / `orWhere`
invoked with an explicit `IS NULL` / `IS NOT NULL` operator string (one
parameter pushed, zero placeholders) or with an explicit `IN` / `NOT IN`
operator string over a scalar (one parameter pushed, but
`condition.value.length` placeholders: string length for a string value, a
TypeError for `null`); the dedicated `whereIn` / `whereNotIn` /
`whereNull` / `whereNotNull` methods are the API for those operators.
`having` pushes a value that is never parameterized, counted separately. -/
def opBalanced : BuildOp → Bool
  | .whereOp _ op _ =>
      !(op == "IS NULL" || op == "IS NOT NULL" || op == "IN" || op == "NOT IN")
  | .orWhereOp _ op _ =>
      !(op == "IS NULL" || op == "IS NOT NULL" || op == "IN" || op == "NOT IN")
  | _ => true

/-- Whether a recorded builder call creates a condition whose rendering
throws: only `where` / `orWhere` invoked with an `IN` / `NOT IN` operator
string and the `null` value can. -/
def opNullIn : BuildOp → Bool
  | .whereOp _ op v => (op == "IN" || op == "NOT IN") && isNullArg (.single v)
  | .orWhereOp _ op v => (op == "IN" || op == "NOT IN") && isNullArg (.single v)
  | _ => false

/-- The where-conditions one builder call records. -/
def opWhereConds : BuildOp → List WhereCond
  | .whereOp f op v => [⟨f, op, .single v, "AND"⟩]
  | .orWhereOp f op v => [⟨f, op, .single v, "OR"⟩]
  | .whereIn f vs => [⟨f, "IN", .arr vs, "AND"⟩]
  | .whereNotIn f vs => [⟨f, "NOT IN", .arr vs, "AND"⟩]
  | .whereLike f p => [⟨f, "LIKE", .single p, "AND"⟩]
  | .whereNull f => [⟨f, "IS NULL", .single .null, "AND"⟩]
  | .whereNotNull f => [⟨f, "IS NOT NULL", .single .null, "AND"⟩]
  | .havingOp _ _ _ => []

/-- The having-conditions one builder call records. -/
def opHavingConds : BuildOp → List HavingCond
  | .havingOp f op v => [⟨f, op, v, "AND"⟩]
  | _ => []

/-- Total number of placeholders `_buildWhereClause` emits for a condition
list that renders without throwing. -/
def whereMarkerCount (conds : List WhereCond) : Nat := (conds.map condMarkerCount).sum

/-! Migration engine, from `src/core/MigrationManager.js`.  File-system and
database reads are passed in as explicit data: `files` is the `readdir`
result, `ledger` the rows of the migration tracking table.  A unit's
forward/backward transform is a function into `Except`: `.error` models the
module failing to load, not exporting the required function, or the
transform throwing.  The ledger writes `orm.create` / `orm.deleteRecord`
never throw (index.js wraps every adapter failure into a response object
with `statusCode: 500`), so they are modelled as a success flag that the
migration code receives and, as in the source, ignores. -/

/-- Character comparison list-lexicographically, the default
`Array.prototype.sort` comparator on (ASCII) strings. -/
def listCharLeb : List Char → List Char → Bool
  | [], _ => true
  | _ :: _, [] => false
  | a :: as, b :: bs => if a < b then true else if b < a then false else listCharLeb as bs

/-- String comparison as used by `.sort()` in `_getPendingMigrations`. -/
def strLeb (a b : String) : Bool := listCharLeb a.data b.data

/-- The `.sort()` call: sorts identifiers lexicographically ascending. -/
def sortIds (l : List String) : List String :=
  List.insertionSort (fun a b => strLeb a b = true) l

/-- `files.filter(file => file.endsWith('.js'))` (line 155). -/
def jsFileFilter (files : List String) : List String :=
  files.filter (fun f => List.isSuffixOf ".js".data f.data)

/-- A row of the migration tracking table as far as the claims are
concerned: identifier and batch number (the timestamp column plays no role
in any transition). -/
structure LedgerRow where
  migration : String
  batch : Int
  deriving DecidableEq

/-- `_getPendingMigrations` (lines 151-170): discovered `.js` files, sorted,
minus identifiers already present in the ledger.  The model assumes the
ledger read succeeds (on a failed read the source treats every file as
pending). -/
def pendingMigrations (files : List String) (ledger : List LedgerRow) : List String :=
  (sortIds (jsFileFilter files)).filter
    (fun f => !((ledger.map LedgerRow.migration).contains f))

/-- `_getNextBatchNumber` (lines 194-206): `max(batch)` over the ledger
(`|| 0` when the table is empty), plus one. -/
def nextBatchNumber (ledger : List LedgerRow) : Int :=
  (ledger.foldl (fun acc r => max acc r.batch) 0) + 1

/-- The outcome of one `migrate()` call: the identifiers executed in order,
the captured `{migration, error}` failures, the batch number used, and the
ledger as left behind. -/
structure MigrateOutcome where
  executed : List String
  errors : List (String × String)
  batch : Int
  ledger : List LedgerRow
  deriving DecidableEq

/-- The loop of `migrate()` (lines 121-130): each step runs
`_executeMigration` (load the unit, require an `up` function, run it — any
of which may throw, modelled by `up` returning `.error`), then inserts the
ledger row.  The insert's response object is not inspected by the source,
so a failed insert (`insertOk m = false`) leaves no row but does not stop
the loop; only a thrown error hits the `catch` with its `break`. -/
def migrateLoop (up : String → Except String Unit) (insertOk : String → Bool) (batch : Int) :
    List String → List LedgerRow → List String → List (String × String) →
    List String × List (String × String) × List LedgerRow
  | [], ledger, executed, errors => (executed, errors, ledger)
  | m :: rest, ledger, executed, errors =>
    match up m with
    | .ok _ =>
      migrateLoop up insertOk batch rest
        (if insertOk m then ledger ++ [⟨m, batch⟩] else ledger)
        (executed ++ [m]) errors
    | .error e => (executed, errors ++ [(m, e)], ledger)

/-- `migrate()` (lines 103-148). -/
def migrate (files : List String) (ledger : List LedgerRow)
    (up : String → Except String Unit) (insertOk : String → Bool) : MigrateOutcome :=
  let pending := pendingMigrations files ledger
  if pending.isEmpty then
    { executed := [], errors := [], batch := 0, ledger := ledger }
  else
    let batch := nextBatchNumber ledger
    let r := migrateLoop up insertOk batch pending ledger [] []
    { executed := r.1, errors := r.2.1, batch := batch, ledger := r.2.2 }

/-- Did the transform succeed? -/
def exOk : Except String Unit → Bool
  | .ok _ => true
  | .error _ => false

/-- The message of a failed transform (unused on success). -/
def errMsg : Except String Unit → String
  | .ok _ => ""
  | .error m => m

/-- The loop of `rollback()` (lines 248-257) over its candidate rows:
`_rollbackMigration` runs the backward transform (which may throw) and then
a ledger delete that never throws; on the first thrown error the loop
records the failure and breaks. -/
def rollbackRun (down : String → Except String Unit) :
    List String → List String → List (String × String) →
    List String × List (String × String)
  | [], rolledBack, errors => (rolledBack, errors)
  | m :: rest, rolledBack, errors =>
    match down m with
    | .ok _ => rollbackRun down rest (rolledBack ++ [m]) errors
    | .error e => (rolledBack, errors ++ [(m, e)])

/-- The loop of `reset()` (lines 383-392): identical per-step work, but no
`break` — after a failure the loop continues with the remaining rows,
accumulating every failure. -/
def resetRun (down : String → Except String Unit) :
    List String → List String → List (String × String) →
    List String × List (String × String)
  | [], resetMigrations, errors => (resetMigrations, errors)
  | m :: rest, resetMigrations, errors =>
    match down m with
    | .ok _ => resetRun down rest (resetMigrations ++ [m]) errors
    | .error e => resetRun down rest resetMigrations (errors ++ [(m, e)])

/-! Schema differ, `_compareSchemas` (MigrationManager.js lines 475-563).
JS objects become ordered association lists; `Object.keys` is `map fst`;
`JSON.stringify(a) !== JSON.stringify(b)` on definitions is structural
inequality of the definition values (the definition type is kept abstract
with decidable equality).  The source iterates key lists and indexes into
the objects, which is what `lookupDef` models; object keys are unique, so
this agrees with iterating the entry lists. -/

/-- One table of a schema snapshot: its column definitions and index
definitions, keyed by name. -/
structure TableDef (α β : Type) where
  columns : List (String × α)
  indexes : List (String × β)
  deriving DecidableEq

/-- A schema snapshot: table name to table definition. -/
def Schema (α β : Type) : Type := List (String × TableDef α β)

/-- Object indexing `obj[key]`: the entry for the first matching key. -/
def lookupDef {γ : Type} (l : List (String × γ)) (k : String) : Option γ :=
  (l.find? (fun p => p.1 == k)).map Prod.snd

/-- `fromSchema[table]` for a table known to be present; the default is
never reached for keys of the object. -/
def lookupTD {α β : Type} (s : Schema α β) (t : String) : TableDef α β :=
  (lookupDef s t).getD ⟨[], []⟩

/-- The structured diff `_compareSchemas` returns.  `modifiedTables` is
initialized by the source and never written.  The per-table maps are
association lists extended only when the per-table list is non-empty,
mirroring the `if (... .length > 0)` guards. -/
structure SchemaDiff (α β : Type) where
  addedTables : List String
  droppedTables : List String
  modifiedTables : List String
  addedColumns : List (String × List (String × α))
  droppedColumns : List (String × List (String × α))
  modifiedColumns : List (String × List (String × α × α))
  addedIndexes : List (String × List (String × β))
  droppedIndexes : List (String × List (String × β))
  deriving DecidableEq

/-- The all-empty diff, also the initializer at lines 476-485. -/
def SchemaDiff.empty {α β : Type} : SchemaDiff α β := ⟨[], [], [], [], [], [], [], []⟩

/-- Keys of `to` absent from `from` (lines 491-492, applied to any pair of
key lists: tables, columns of a table, indexes of a table), with each key's
definition attached as the source does for columns and indexes. -/
def addedEntries {γ : Type} (fromKeys : List String) (toKeys : List String)
    (toObj : List (String × γ)) : List (String × γ) :=
  toKeys.filterMap (fun k =>
    if fromKeys.contains k then none
    else (lookupDef toObj k).map (fun d => (k, d)))

/-- Keys present in both whose definitions differ under
`JSON.stringify` comparison (lines 522-534), with both definitions
attached. -/
def modifiedEntries {γ : Type} [DecidableEq γ] (fromKeys : List String) (toKeys : List String)
    (fromObj toObj : List (String × γ)) : List (String × γ × γ) :=
  (fromKeys.filter (fun k => toKeys.contains k)).filterMap (fun k =>
    match lookupDef fromObj k, lookupDef toObj k with
    | some d1, some d2 => if d1 ≠ d2 then some (k, d1, d2) else none
    | _, _ => none)

/-- The per-common-table body of the loop at lines 497-560, producing that
table's added/dropped/modified columns and added/dropped indexes. -/
def compareTable {α β : Type} [DecidableEq α] [DecidableEq β] (ft tt : TableDef α β) :
    List (String × α) × List (String × α) × List (String × α × α)
      × List (String × β) × List (String × β) :=
  let fromCols := ft.columns.map Prod.fst
  let toCols := tt.columns.map Prod.fst
  let fromIdx := ft.indexes.map Prod.fst
  let toIdx := tt.indexes.map Prod.fst
  (addedEntries fromCols toCols tt.columns,
   addedEntries toCols fromCols ft.columns,
   modifiedEntries fromCols toCols ft.columns tt.columns,
   addedEntries fromIdx toIdx tt.indexes,
   addedEntries toIdx fromIdx ft.indexes)

/-- One iteration of the common-table loop (lines 497-560): extend each
per-table map exactly when that table contributed a non-empty list. -/
def diffStep {α β : Type} [DecidableEq α] [DecidableEq β] (fromS toS : Schema α β)
    (diff : SchemaDiff α β) (t : String) : SchemaDiff α β :=
  let c := compareTable (lookupTD fromS t) (lookupTD toS t)
  { diff with
    addedColumns :=
      if c.1.length > 0 then diff.addedColumns ++ [(t, c.1)] else diff.addedColumns,
    droppedColumns :=
      if c.2.1.length > 0 then diff.droppedColumns ++ [(t, c.2.1)] else diff.droppedColumns,
    modifiedColumns :=
      if c.2.2.1.length > 0 then diff.modifiedColumns ++ [(t, c.2.2.1)]
      else diff.modifiedColumns,
    addedIndexes :=
      if c.2.2.2.1.length > 0 then diff.addedIndexes ++ [(t, c.2.2.2.1)]
      else diff.addedIndexes,
    droppedIndexes :=
      if c.2.2.2.2.length > 0 then diff.droppedIndexes ++ [(t, c.2.2.2.2)]
      else diff.droppedIndexes }

/-- `_compareSchemas(fromSchema, toSchema)` (lines 475-563). -/
def compareSchemas {α β : Type} [DecidableEq α] [DecidableEq β]
    (fromS toS : Schema α β) : SchemaDiff α β :=
  let fromTables := fromS.map Prod.fst
  let toTables := toS.map Prod.fst
  let start : SchemaDiff α β :=
    { SchemaDiff.empty with
      addedTables := toTables.filter (fun t => !(fromTables.contains t)),
      droppedTables := fromTables.filter (fun t => !(toTables.contains t)) }
  (fromTables.filter (fun t => toTables.contains t)).foldl (diffStep fromS toS) start

/-! Supporting lemmas: the lexicographic comparison used by `.sort()`. -/

theorem listCharLeb_total : ∀ as bs : List Char,
    listCharLeb as bs = true ∨ listCharLeb bs as = true
  | [], _ => Or.inl rfl
  | _ :: _, [] => Or.inr rfl
  | a :: as, b :: bs => by
    rcases lt_trichotomy a b with h | h | h
    · left; simp [listCharLeb, h]
    · subst h
      rcases listCharLeb_total as bs with ih | ih
      · left; simp [listCharLeb, lt_irrefl, ih]
      · right; simp [listCharLeb, lt_irrefl, ih]
    · right; simp [listCharLeb, h]

theorem listCharLeb_trans : ∀ as bs cs : List Char, listCharLeb as bs = true →
    listCharLeb bs cs = true → listCharLeb as cs = true
  | [], _, _, _, _ => rfl
  | _ :: _, [], _, h1, _ => by simp [listCharLeb] at h1
  | _ :: _, _ :: _, [], _, h2 => by simp [listCharLeb] at h2
  | a :: as, b :: bs, c :: cs, h1, h2 => by
    rcases lt_trichotomy a b with hab | hab | hab
    · rcases lt_trichotomy b c with hbc | hbc | hbc
      · simp [listCharLeb, lt_trans hab hbc]
      · subst hbc; simp [listCharLeb, hab]
      · exact absurd h2 (by simp [listCharLeb, asymm hbc, hbc])
    · subst hab
      simp only [listCharLeb, lt_irrefl, if_false] at h1
      rcases lt_trichotomy a c with hac | hac | hac
      · simp [listCharLeb, hac]
      · subst hac
        simp only [listCharLeb, lt_irrefl, if_false] at h2 ⊢
        exact listCharLeb_trans as bs cs h1 h2
      · exact absurd h2 (by simp [listCharLeb, asymm hac, hac])
    · exact absurd h1 (by simp [listCharLeb, asymm hab, hab])

theorem strLeb_total (a b : String) : strLeb a b = true ∨ strLeb b a = true :=
  listCharLeb_total a.data b.data

theorem strLeb_trans (a b c : String) (h1 : strLeb a b = true) (h2 : strLeb b c = true) :
    strLeb a c = true :=
  listCharLeb_trans a.data b.data c.data h1 h2

theorem sortIds_sorted (l : List String) :
    (sortIds l).Sorted (fun a b => strLeb a b = true) := by
  haveI : IsTotal String (fun a b => strLeb a b = true) := ⟨strLeb_total⟩
  haveI : IsTrans String (fun a b => strLeb a b = true) := ⟨strLeb_trans⟩
  exact List.sorted_insertionSort _ l

theorem sortIds_mem (l : List String) (a : String) : a ∈ sortIds l ↔ a ∈ l :=
  (List.perm_insertionSort _ l).mem_iff

theorem sortIds_nodup (l : List String) (h : l.Nodup) : (sortIds l).Nodup :=
  ((List.perm_insertionSort _ l).nodup_iff).mpr h

theorem pendingMigrations_mem (files : List String) (ledger : List LedgerRow) (m : String) :
    m ∈ pendingMigrations files ledger ↔
      m ∈ files ∧ List.isSuffixOf ".js".data m.data = true ∧
        m ∉ ledger.map LedgerRow.migration := by
  simp [pendingMigrations, jsFileFilter, sortIds_mem, List.mem_filter, and_assoc]

theorem pendingMigrations_sorted (files : List String) (ledger : List LedgerRow) :
    (pendingMigrations files ledger).Sorted (fun a b => strLeb a b = true) :=
  (sortIds_sorted _).filter _

theorem pendingMigrations_nodup (files : List String) (ledger : List LedgerRow)
    (h : files.Nodup) : (pendingMigrations files ledger).Nodup :=
  (sortIds_nodup _ (h.filter _)).filter _

theorem pendingMigrations_sorted_strict (files : List String) (ledger : List LedgerRow)
    (h : files.Nodup) :
    (pendingMigrations files ledger).Pairwise (fun a b => strLeb a b = true ∧ a ≠ b) :=
  (pendingMigrations_sorted files ledger).and (pendingMigrations_nodup files ledger h)

/-! Supporting lemmas: builder calls and the state they leave behind. -/

theorem applyOp_state (qb : QueryBuilder) (o : BuildOp) :
    applyOp qb o =
      { qb with
        whereConditions := qb.whereConditions ++ opWhereConds o,
        havingConditions := qb.havingConditions ++ opHavingConds o,
        params := qb.params ++ opParamVals o } := by
  cases o <;>
    simp [applyOp, QueryBuilder.whereOp, QueryBuilder.orWhereOp, QueryBuilder.whereIn,
      QueryBuilder.whereNotIn, QueryBuilder.whereLike, QueryBuilder.whereNull,
      QueryBuilder.whereNotNull, QueryBuilder.havingOp, opWhereConds, opHavingConds, opParamVals]

theorem applyOps_state (ops : List BuildOp) : ∀ qb : QueryBuilder,
    applyOps qb ops =
      { qb with
        whereConditions := qb.whereConditions ++ (ops.map opWhereConds).flatten,
        havingConditions := qb.havingConditions ++ (ops.map opHavingConds).flatten,
        params := qb.params ++ (ops.map opParamVals).flatten } := by
  induction ops with
  | nil => intro qb; simp [applyOps]
  | cons o rest ih =>
    intro qb
    have h1 : applyOps qb (o :: rest) = applyOps (applyOp qb o) rest := rfl
    rw [h1, ih (applyOp qb o), applyOp_state]
    simp [List.append_assoc]

theorem whereVals_eq_paramVals (o : BuildOp) (h : isHaving o = false) :
    opWhereVals o = opParamVals o := by
  simp [opWhereVals, h]

theorem jsToLower_eq_empty (s : String) (h : jsToLower s = "") : s = "" := by
  apply String.ext
  have h2 := congrArg String.data h
  simp [jsToLower] at h2
  simp [h2]

theorem isFalsyStr_lower_false (s : String) (h : s ≠ "") :
    isFalsyStr (some (jsToLower s)) = false := by
  simp only [isFalsyStr, beq_eq_false_iff_ne, ne_eq]
  intro hc
  exact h (jsToLower_eq_empty s hc)

/-! Supporting lemmas: counting placeholders against pushed parameters. -/

theorem whereMarkerCount_append (l1 l2 : List WhereCond) :
    whereMarkerCount (l1 ++ l2) = whereMarkerCount l1 + whereMarkerCount l2 := by
  simp [whereMarkerCount]

theorem opBalanced_count (o : BuildOp) (h : opBalanced o = true) :
    (opParamVals o).length = whereMarkerCount (opWhereConds o) + (opHavingConds o).length := by
  cases o with
  | whereOp f op v =>
    simp only [opBalanced, Bool.not_eq_true', Bool.or_eq_false_iff, beq_eq_false_iff_ne,
      ne_eq] at h
    simp [opParamVals, opWhereConds, opHavingConds, whereMarkerCount, condMarkerCount, h]
  | orWhereOp f op v =>
    simp only [opBalanced, Bool.not_eq_true', Bool.or_eq_false_iff, beq_eq_false_iff_ne,
      ne_eq] at h
    simp [opParamVals, opWhereConds, opHavingConds, whereMarkerCount, condMarkerCount, h]
  | whereIn f vs =>
    simp [opParamVals, opWhereConds, opHavingConds, whereMarkerCount, condMarkerCount,
      jsLen, effLen]
  | whereNotIn f vs =>
    simp [opParamVals, opWhereConds, opHavingConds, whereMarkerCount, condMarkerCount,
      jsLen, effLen]
  | whereLike f p =>
    simp [opParamVals, opWhereConds, opHavingConds, whereMarkerCount, condMarkerCount]
  | whereNull f =>
    simp [opParamVals, opWhereConds, opHavingConds, whereMarkerCount, condMarkerCount]
  | whereNotNull f =>
    simp [opParamVals, opWhereConds, opHavingConds, whereMarkerCount, condMarkerCount]
  | havingOp f op v =>
    simp [opParamVals, opWhereConds, opHavingConds, whereMarkerCount]

theorem ops_param_length (ops : List BuildOp) (h : ∀ o ∈ ops, opBalanced o = true) :
    ((ops.map opParamVals).flatten).length =
      whereMarkerCount ((ops.map opWhereConds).flatten)
        + ((ops.map opHavingConds).flatten).length := by
  induction ops with
  | nil => simp [whereMarkerCount]
  | cons o rest ih =>
    have ho := h o (List.mem_cons_self o rest)
    have hrest := ih (fun x hx => h x (List.mem_cons_of_mem o hx))
    simp only [List.map_cons, List.flatten_cons, List.length_append,
      whereMarkerCount_append, hrest, opBalanced_count o ho]
    omega

/-! Supporting lemmas: the where clause's TypeError path. -/

theorem except_map_error_iff {α β : Type} (x : Except String α) (f : α → β) :
    (∃ e, x.map f = .error e) ↔ ∃ e, x = .error e := by
  cases x <;> simp [Except.map]

theorem whereClauseAux_error_iff (db : String) :
    ∀ (conds : List WhereCond) (index : Nat) (counter : Option Nat),
    (∃ e, whereClauseAux db conds index counter = .error e) ↔ whereThrows conds = true := by
  intro conds
  induction conds with
  | nil => intro i c; simp [whereClauseAux, whereThrows]
  | cons hd rest ih =>
    intro i c
    rcases Decidable.em (hd.operator = "IN" ∨ hd.operator = "NOT IN") with hin | hin
    · by_cases hnull : isNullArg hd.value = true
      · rcases hin with h | h <;>
          simp [whereClauseAux, h, hnull, whereThrows, List.any_cons, condNullIn]
      · rcases hin with h | h <;>
          simp [whereClauseAux, h, hnull, whereThrows, List.any_cons, condNullIn,
            except_map_error_iff, ih]
    · rcases Decidable.em (hd.operator = "IS NULL" ∨ hd.operator = "IS NOT NULL")
        with hnl | hnl
      · have hin1 : ¬ hd.operator = "IN" := fun hc => hin (Or.inl hc)
        have hin2 : ¬ hd.operator = "NOT IN" := fun hc => hin (Or.inr hc)
        rcases hnl with h | h <;>
          simp [whereClauseAux, h, hin1, hin2, whereThrows, List.any_cons, condNullIn,
            except_map_error_iff, ih]
      · have hin1 : ¬ hd.operator = "IN" := fun hc => hin (Or.inl hc)
        have hin2 : ¬ hd.operator = "NOT IN" := fun hc => hin (Or.inr hc)
        have hnl1 : ¬ hd.operator = "IS NULL" := fun hc => hnl (Or.inl hc)
        have hnl2 : ¬ hd.operator = "IS NOT NULL" := fun hc => hnl (Or.inr hc)
        simp [whereClauseAux, hin1, hin2, hnl1, hnl2, whereThrows, List.any_cons,
          condNullIn, except_map_error_iff, ih]

theorem whereClauseAux_ok (db : String) (conds : List WhereCond) (i : Nat) (c : Option Nat)
    (h : whereThrows conds = false) : ∃ w, whereClauseAux db conds i c = .ok w := by
  cases hx : whereClauseAux db conds i c with
  | ok w => exact ⟨w, rfl⟩
  | error e =>
    have hth := (whereClauseAux_error_iff db conds i c).mp ⟨e, hx⟩
    rw [h] at hth
    exact absurd hth (by decide)

theorem renderedWhere_error_iff (qb : QueryBuilder) :
    (∃ e, renderedWhere qb = .error e) ↔ whereThrows qb.whereConditions = true := by
  unfold renderedWhere
  by_cases h : 0 < qb.whereConditions.length
  · rw [if_pos h]
    exact whereClauseAux_error_iff _ _ _ _
  · rw [if_neg h]
    have hnil : qb.whereConditions = [] := by
      cases hq : qb.whereConditions with
      | nil => rfl
      | cons a l => rw [hq] at h; simp at h
    simp [hnil, whereThrows]

theorem renderedWhere_ok (qb : QueryBuilder) (h : whereThrows qb.whereConditions = false) :
    ∃ w, renderedWhere qb = .ok w := by
  unfold renderedWhere
  by_cases hl : 0 < qb.whereConditions.length
  · rw [if_pos hl]
    exact whereClauseAux_ok _ _ _ _ h
  · rw [if_neg hl]
    exact ⟨"", rfl⟩

theorem opWhereConds_nullIn (o : BuildOp) (h : opNullIn o = false) :
    ∀ c ∈ opWhereConds o, condNullIn c = false := by
  cases o <;> simp_all [opNullIn, opWhereConds, condNullIn, isNullArg]

theorem opBalanced_nullIn (o : BuildOp) (h : opBalanced o = true) : opNullIn o = false := by
  cases o <;> simp_all [opBalanced, opNullIn]

theorem ops_no_throw (ops : List BuildOp) (h : ∀ o ∈ ops, opNullIn o = false) :
    whereThrows ((ops.map opWhereConds).flatten) = false := by
  rw [whereThrows, List.any_eq_false]
  intro c hc
  obtain ⟨l, hl, hcl⟩ := List.mem_flatten.mp hc
  obtain ⟨o, ho, rfl⟩ := List.mem_map.mp hl
  simp [opWhereConds_nullIn o (h o ho) c hcl]

/-! Supporting lemmas: the migration loops. -/

theorem migrateLoop_spec (up : String → Except String Unit) (insertOk : String → Bool)
    (batch : Int) : ∀ (pending : List String) (ledger : List LedgerRow)
      (executed : List String) (errors : List (String × String)),
    migrateLoop up insertOk batch pending ledger executed errors =
      (executed ++ pending.takeWhile (fun m => exOk (up m)),
       errors ++ ((pending.dropWhile (fun m => exOk (up m))).take 1).map
         (fun m => (m, errMsg (up m))),
       ledger ++ ((pending.takeWhile (fun m => exOk (up m))).filter insertOk).map
         (fun m => ⟨m, batch⟩)) := by
  intro pending
  induction pending with
  | nil => intro ledger executed errors; simp [migrateLoop]
  | cons m rest ih =>
    intro ledger executed errors
    cases hup : up m with
    | ok u =>
      by_cases him : insertOk m <;>
        simp [migrateLoop, hup, ih, exOk, errMsg, him, List.takeWhile_cons,
          List.dropWhile_cons, List.filter_cons]
    | error e =>
      simp [migrateLoop, hup, exOk, errMsg, List.takeWhile_cons, List.dropWhile_cons]

theorem rollbackRun_spec (down : String → Except String Unit) :
    ∀ (rows acc : List String) (errs : List (String × String)),
    rollbackRun down rows acc errs =
      (acc ++ rows.takeWhile (fun m => exOk (down m)),
       errs ++ ((rows.dropWhile (fun m => exOk (down m))).take 1).map
         (fun m => (m, errMsg (down m)))) := by
  intro rows
  induction rows with
  | nil => intro acc errs; simp [rollbackRun]
  | cons m rest ih =>
    intro acc errs
    cases hd : down m with
    | ok u =>
      simp [rollbackRun, hd, ih, exOk, errMsg, List.takeWhile_cons, List.dropWhile_cons]
    | error e =>
      simp [rollbackRun, hd, exOk, errMsg, List.takeWhile_cons, List.dropWhile_cons]

theorem resetRun_spec (down : String → Except String Unit) :
    ∀ (rows acc : List String) (errs : List (String × String)),
    resetRun down rows acc errs =
      (acc ++ rows.filter (fun m => exOk (down m)),
       errs ++ (rows.filter (fun m => !(exOk (down m)))).map
         (fun m => (m, errMsg (down m)))) := by
  intro rows
  induction rows with
  | nil => intro acc errs; simp [resetRun]
  | cons m rest ih =>
    intro acc errs
    cases hd : down m with
    | ok u =>
      simp [resetRun, hd, ih, exOk, errMsg, List.filter_cons]
    | error e =>
      simp [resetRun, hd, ih, exOk, errMsg, List.filter_cons]

theorem filter_split_length (rows : List String) (p : String → Bool) :
    (rows.filter p).length + (rows.filter (fun m => !(p m))).length = rows.length := by
  induction rows with
  | nil => rfl
  | cons x xs ih => by_cases h : p x <;> simp [List.filter_cons, h] <;> omega

/-! Supporting lemmas: the schema differ on identical snapshots. -/

theorem filter_not_contains_self (l : List String) :
    l.filter (fun t => !(l.contains t)) = [] := by
  rw [List.filter_eq_nil_iff]
  intro a ha
  simp [ha]

theorem addedEntries_self {γ : Type} (keys : List String) (obj : List (String × γ)) :
    addedEntries keys keys obj = [] := by
  rw [addedEntries, List.filterMap_eq_nil_iff]
  intro k hk
  simp [hk]

theorem modifiedEntries_self {γ : Type} [DecidableEq γ] (ka kb : List String)
    (obj : List (String × γ)) : modifiedEntries ka kb obj obj = [] := by
  rw [modifiedEntries, List.filterMap_eq_nil_iff]
  intro k hk
  cases h : lookupDef obj k <;> simp [h]

theorem compareTable_self {α β : Type} [DecidableEq α] [DecidableEq β] (td : TableDef α β) :
    compareTable td td = ([], [], [], [], []) := by
  simp [compareTable, addedEntries_self, modifiedEntries_self]

theorem diffStep_self {α β : Type} [DecidableEq α] [DecidableEq β] (S : Schema α β)
    (diff : SchemaDiff α β) (t : String) : diffStep S S diff t = diff := by
  simp [diffStep, compareTable_self]

theorem foldl_diffStep_self {α β : Type} [DecidableEq α] [DecidableEq β] (S : Schema α β) :
    ∀ (l : List String) (diff : SchemaDiff α β), l.foldl (diffStep S S) diff = diff := by
  intro l
  induction l with
  | nil => intro diff; rfl
  | cons t ts ih => intro diff; rw [List.foldl_cons, diffStep_self, ih]

/-! Claim theorems. -/

/-- C7: for every schema snapshot S, `_compareSchemas(S, S)` yields a diff
in which every category (added tables, dropped tables, added columns,
dropped columns, modified columns, added indexes, dropped indexes) is
empty. -/
theorem claim7_diff_self_empty {α β : Type} [DecidableEq α] [DecidableEq β]
    (S : Schema α β) : compareSchemas S S = SchemaDiff.empty := by
  unfold compareSchemas
  simp only [filter_not_contains_self, foldl_diffStep_self]
  rfl

/-- C7 witness: the self-diff of a concrete one-table snapshot is empty. -/
theorem claim7_witness :
    compareSchemas (α := Nat) (β := Nat)
      [("users", ⟨[("id", 0), ("name", 1)], [("idx_users_id", 7)]⟩)]
      [("users", ⟨[("id", 0), ("name", 1)], [("idx_users_id", 7)]⟩)] = SchemaDiff.empty :=
  claim7_diff_self_empty _

/-- C4: for every ledger row list and backward-transform behavior, `reset()`
attempts every row — successes are exactly the rows whose transform
succeeds, failures are collected together as a list, and every row lands in
one of the two — while `rollback()` keeps only the prefix of rows whose
transforms succeed and stops at the first failure, attempting none of the
remaining candidates. -/
theorem claim4_reset_attempts_all_rollback_stops
    (down : String → Except String Unit) (rows : List String) :
    (resetRun down rows [] []).1 = rows.filter (fun m => exOk (down m)) ∧
    (resetRun down rows [] []).2 =
      (rows.filter (fun m => !(exOk (down m)))).map (fun m => (m, errMsg (down m))) ∧
    (resetRun down rows [] []).1.length + (resetRun down rows [] []).2.length = rows.length ∧
    (rollbackRun down rows [] []).1 = rows.takeWhile (fun m => exOk (down m)) ∧
    (rollbackRun down rows [] []).2 =
      ((rows.dropWhile (fun m => exOk (down m))).take 1).map (fun m => (m, errMsg (down m))) := by
  have hr := resetRun_spec down rows [] []
  have hb := rollbackRun_spec down rows [] []
  refine ⟨?_, ?_, ?_, ?_, ?_⟩ <;> simp [hr, hb]
  exact filter_split_length rows _

/-- C3 counterexample: with both discovered units' forward transforms
succeeding but the first unit's ledger insert failing, `migrate()` still
applies the second unit (the insert's failed response object is ignored by
`_executeMigration`), contradicting the claim that a failed ledger insert
stops the run and leaves later units unapplied. -/
theorem claim3_counterexample :
    ((fun m : String => m == "002_b.js") "001_a.js" = false) ∧
    (migrate ["001_a.js", "002_b.js"] [] (fun _ => .ok ())
        (fun m => m == "002_b.js")).executed = ["001_a.js", "002_b.js"] ∧
    (migrate ["001_a.js", "002_b.js"] [] (fun _ => .ok ())
        (fun m => m == "002_b.js")).ledger = [⟨"002_b.js", 1⟩] := by decide

/-- C3 (amended): `migrate()` runs exactly the pending units — the
discovered `.js` files minus the ledger identifiers — in strictly ascending
lexicographic order; it executes the longest prefix of pending units whose
forward transforms succeed, stopping at the first unit whose forward
transform throws (later pending units are not applied); a ledger row with
the computed next batch number is inserted for each applied unit whose
insert succeeds, but an insert failure does not stop the pass. -/
theorem claim3_migrate_order_and_stop (files : List String) (ledger : List LedgerRow)
    (up : String → Except String Unit) (insertOk : String → Bool) (hnd : files.Nodup) :
    (∀ m, m ∈ pendingMigrations files ledger ↔
        m ∈ files ∧ List.isSuffixOf ".js".data m.data = true ∧
          m ∉ ledger.map LedgerRow.migration) ∧
    (pendingMigrations files ledger).Pairwise (fun a b => strLeb a b = true ∧ a ≠ b) ∧
    (migrate files ledger up insertOk).executed =
      (pendingMigrations files ledger).takeWhile (fun m => exOk (up m)) ∧
    (migrate files ledger up insertOk).errors =
      (((pendingMigrations files ledger).dropWhile (fun m => exOk (up m))).take 1).map
        (fun m => (m, errMsg (up m))) ∧
    (migrate files ledger up insertOk).ledger =
      ledger ++ ((migrate files ledger up insertOk).executed.filter insertOk).map
        (fun m => ⟨m, nextBatchNumber ledger⟩) := by
  refine ⟨pendingMigrations_mem files ledger,
    pendingMigrations_sorted_strict files ledger hnd, ?_, ?_, ?_⟩ <;>
  · unfold migrate
    by_cases hp : (pendingMigrations files ledger).isEmpty
    · have hnil : pendingMigrations files ledger = [] := by
        simpa [List.isEmpty_iff] using hp
      simp [hp, hnil]
    · simp [hp, migrateLoop_spec]

/-- C3 witness: the amended statement at a concrete input with one failing
forward transform. -/
theorem claim3_witness :
    (migrate ["b.js", "a.js"] [] (fun m => if m = "a.js" then .ok () else .error "boom")
        (fun _ => true)).executed =
      (pendingMigrations ["b.js", "a.js"] []).takeWhile
        (fun m => exOk ((fun m => if m = "a.js" then .ok () else .error "boom") m)) :=
  (claim3_migrate_order_and_stop ["b.js", "a.js"] []
    (fun m => if m = "a.js" then .ok () else .error "boom") (fun _ => true)
    (by decide)).2.2.1

/-- C1: code evaluation at the failing input.  Under the dollar-marker and
colon-marker dialects an update with one payload field and one where
condition compiles with the marker number 1 used twice — the `SET` counter
and the `WHERE` counter both restart at 1 — while the parameter list has
two entries, so the markers are neither pairwise distinct nor the
contiguous sequence 1..2. -/
theorem claim1_counter_eval :
    ((((QueryBuilder.init.database "postgresql").table "users").update
        [("name", .str "x")]).whereOp "id" "=" (.num 5)).toSQL =
      .ok ⟨"UPDATE users SET name = $1 WHERE id = $1", [.str "x", .num 5]⟩ ∧
    ((((QueryBuilder.init.database "snowflake").table "users").update
        [("name", .str "x")]).whereOp "id" "=" (.num 5)).toSQL =
      .ok ⟨"UPDATE users SET name = :1 WHERE id = :1", [.str "x", .num 5]⟩ := by decide

/-- C5 counterexample: the compiled insert of scenario B is not the claimed
text `INSERT INTO users (name,age) VALUES (?,?)` — the source joins field
and placeholder lists with a comma and a space. -/
theorem claim5_counterexample :
    (((QueryBuilder.init.database "mysql").table "users").insert
        [("name", .str "Jane"), ("age", .num 25)]).toSQL ≠
      .ok ⟨"INSERT INTO users (name,age) VALUES (?,?)", [.str "Jane", .num 25]⟩ := by decide

/-- C5 (amended): `table('users').insert({name:'Jane', age:25})` under the
unnamed-marker dialect compiles to exactly
`INSERT INTO users (name, age) VALUES (?, ?)` (comma-space separators) with
the parameter list `['Jane', 25]` in that order. -/
theorem claim5_insert_scenario :
    (((QueryBuilder.init.database "mysql").table "users").insert
        [("name", .str "Jane"), ("age", .num 25)]).toSQL =
      .ok ⟨"INSERT INTO users (name, age) VALUES (?, ?)", [.str "Jane", .num 25]⟩ := by decide

/-- C2 counterexample: three intents the claim says must fail all compile
successfully — an unrecognized dialect (`oracle`) falls back to unnamed
markers instead of raising a dialect error, a missing target table renders
as the text `null`, and an empty (but present) insert payload passes the
truthiness check. -/
theorem claim2_counterexample :
    (((QueryBuilder.init.database "oracle").table "users").insert [("name", .str "Jane")]).toSQL
      = .ok ⟨"INSERT INTO users (name) VALUES (?)", [.str "Jane"]⟩ ∧
    ((QueryBuilder.init.database "mysql").selectStar).toSQL
      = .ok ⟨"SELECT * FROM null", []⟩ ∧
    (((QueryBuilder.init.database "mysql").table "t").insert []).toSQL
      = .ok ⟨"INSERT INTO t () VALUES ()", []⟩ := by decide

/-- C2 (amended): `toSQL()` fails if and only if the dialect is unset (or
the empty string), the operation kind is unset or unrecognized, an
insert/update has an absent (`null`) payload, or a select/update/delete
renders a where clause containing an `IN` / `NOT IN` condition over the
scalar `null` (a thrown TypeError from reading `null.length`).  A missing
target table, an empty-object payload, and an unrecognized dialect do not
fail; all failures are plain thrown errors (no ConfigurationError or
DialectError class exists in the source). -/
theorem claim2_toSQL_error_iff (qb : QueryBuilder) :
    (∃ e, qb.toSQL = .error e) ↔
      (isFalsyStr qb.databaseType = true
        ∨ (qb.queryType ≠ some "SELECT" ∧ qb.queryType ≠ some "INSERT"
            ∧ qb.queryType ≠ some "UPDATE" ∧ qb.queryType ≠ some "DELETE")
        ∨ (qb.queryType = some "INSERT" ∧ qb.insertData = none)
        ∨ (qb.queryType = some "UPDATE" ∧ qb.updateData = none)
        ∨ ((qb.queryType = some "SELECT" ∨ qb.queryType = some "UPDATE"
              ∨ qb.queryType = some "DELETE")
            ∧ whereThrows qb.whereConditions = true)) := by
  have hsel : (∃ e, buildSelectQuery qb = .error e)
      ↔ whereThrows qb.whereConditions = true := by
    unfold buildSelectQuery
    rw [except_map_error_iff]
    exact renderedWhere_error_iff qb
  have hdel : (∃ e, buildDeleteQuery qb = .error e)
      ↔ whereThrows qb.whereConditions = true := by
    unfold buildDeleteQuery
    rw [except_map_error_iff]
    exact renderedWhere_error_iff qb
  unfold QueryBuilder.toSQL
  by_cases h0 : isFalsyStr qb.databaseType = true
  · simp [h0]
  · rw [if_neg h0]
    by_cases h1 : qb.queryType = some "SELECT"
    · rw [if_pos h1, hsel]
      simp [h0, h1]
    · rw [if_neg h1]
      by_cases h2 : qb.queryType = some "INSERT"
      · cases hd : qb.insertData with
        | none => simp [h0, h2, hd, buildInsertQuery]
        | some d => simp [h0, h2, hd, buildInsertQuery]
      · rw [if_neg h2]
        by_cases h3 : qb.queryType = some "UPDATE"
        · cases hd : qb.updateData with
          | none => simp [h0, h3, hd, buildUpdateQuery]
          | some d =>
            have hupd : (∃ e, buildUpdateQuery qb = .error e)
                ↔ whereThrows qb.whereConditions = true := by
              unfold buildUpdateQuery
              rw [hd]
              rw [except_map_error_iff]
              exact renderedWhere_error_iff qb
            rw [if_pos h3, hupd]
            simp [h0, h3, hd]
        · rw [if_neg h3]
          by_cases h4 : qb.queryType = some "DELETE"
          · rw [if_pos h4, hdel]
            simp [h0, h4]
          · rw [if_neg h4]
            simp [h0, h1, h2, h3, h4]

/-- C8: compilation is idempotent and does not mutate the intent — if a
compile over the state-threaded `toSQLSt` succeeds, the post-state is the
pre-state and compiling again returns the byte-identical SQL text and
parameter list. -/
theorem claim8_compile_idempotent (qb : QueryBuilder) (r : SqlResult) (qb2 : QueryBuilder)
    (h : qb.toSQLSt = .ok (r, qb2)) :
    qb2 = qb ∧ qb2.toSQLSt = .ok (r, qb2) := by
  unfold QueryBuilder.toSQLSt at h ⊢
  cases hts : qb.toSQL with
  | ok r2 =>
    rw [hts] at h
    simp only [Except.ok.injEq, Prod.mk.injEq] at h
    obtain ⟨hr, hq⟩ := h
    subst hr
    subst hq
    rw [hts]
    exact ⟨rfl, rfl⟩
  | error e =>
    rw [hts] at h
    simp at h

/-- C8 witness: a concrete compile succeeds, leaves the intent unchanged,
and recompiles to the identical result. -/
theorem claim8_witness :
    ((QueryBuilder.init.database "mysql").table "t").selectStar =
      ((QueryBuilder.init.database "mysql").table "t").selectStar ∧
    (((QueryBuilder.init.database "mysql").table "t").selectStar).toSQLSt =
      .ok (⟨"SELECT * FROM t", []⟩,
        ((QueryBuilder.init.database "mysql").table "t").selectStar) :=
  claim8_compile_idempotent _ ⟨"SELECT * FROM t", []⟩ _ (by decide)

/-- C10: offset is silently dropped without limit — when `limitValue` is
unset, the compiled output is identical to that of the same intent with the
offset erased, and the `LIMIT`/`OFFSET` tail is empty; the tail carries an
`OFFSET` clause exactly when both a limit and an offset are set; and the
select SQL is the core text followed by that tail. -/
theorem claim10_offset_needs_limit :
    (∀ qb : QueryBuilder, qb.limitValue = none →
      qb.toSQL = QueryBuilder.toSQL { qb with offsetValue := none } ∧
      limitOffsetFragment qb.limitValue qb.offsetValue = "") ∧
    (∀ l o : Option Int,
      (∃ n m, l = some n ∧ o = some m ∧
        limitOffsetFragment l o = " LIMIT " ++ toString n ++ (" OFFSET " ++ toString m))
      ↔ (l ≠ none ∧ o ≠ none)) ∧
    (∀ qb : QueryBuilder,
      (buildSelectQuery qb).map SqlResult.sql
        = (renderedWhere qb).map (fun w =>
            selectCore qb w ++ limitOffsetFragment qb.limitValue qb.offsetValue)) := by
  refine ⟨?_, ?_, ?_⟩
  · intro qb h
    cases qb with
    | mk qt tn sf wc jc gb hc ob lv ov idata udata ps db =>
      have hlv : lv = none := h
      subst hlv
      exact ⟨rfl, rfl⟩
  · intro l o
    constructor
    · rintro ⟨n, m, rfl, rfl, -⟩
      exact ⟨Option.some_ne_none n, Option.some_ne_none m⟩
    · rintro ⟨hl, ho⟩
      cases l with
      | none => exact absurd rfl hl
      | some n =>
        cases o with
        | none => exact absurd rfl ho
        | some m => exact ⟨n, m, rfl, rfl, rfl⟩
  · intro qb
    unfold buildSelectQuery
    cases hx : renderedWhere qb <;> simp [hx, Except.map]

/-- C10 witness: a select intent with `offset(5)` and no limit compiles
identically to the same intent with the offset erased, with an empty
`LIMIT`/`OFFSET` tail. -/
theorem claim10_witness :
    ((((QueryBuilder.init.database "mysql").table "t").selectStar.offset 5).limitValue
        = none) ∧
    ((((QueryBuilder.init.database "mysql").table "t").selectStar.offset 5).toSQL =
      QueryBuilder.toSQL
        { (((QueryBuilder.init.database "mysql").table "t").selectStar.offset 5) with
            offsetValue := none } ∧
      limitOffsetFragment
        ((((QueryBuilder.init.database "mysql").table "t").selectStar.offset 5)).limitValue
        ((((QueryBuilder.init.database "mysql").table "t").selectStar.offset 5)).offsetValue
        = "") :=
  ⟨rfl, claim10_offset_needs_limit.1 _ rfl⟩

/-- C6: for every update intent with a non-empty payload and any sequence
of recorded where-family conditions (no having calls, and no `where` /
`orWhere` call combining an `IN` / `NOT IN` operator with the `null` value,
whose compilation throws a TypeError), the compiled parameter list is
exactly the payload values in payload key order followed by the
where-condition values in the order the conditions were recorded. -/
theorem claim6_update_param_order (db t : String) (payload : List (String × JsVal))
    (ops : List BuildOp) (hdb : db ≠ "") (hops : ∀ o ∈ ops, isHaving o = false)
    (hsafe : ∀ o ∈ ops, opNullIn o = false) (hpay : payload ≠ []) :
    ((applyOps (((QueryBuilder.init.database db).table t).update payload) ops).toSQL.toOption).map
        SqlResult.params
      = some (payload.map Prod.snd ++ (ops.map opWhereVals).flatten) := by
  have hmap : ops.map opWhereVals = ops.map opParamVals :=
    List.map_congr_left fun o ho => whereVals_eq_paramVals o (hops o ho)
  have hthrow := ops_no_throw ops hsafe
  have hqt : (applyOps (((QueryBuilder.init.database db).table t).update payload)
      ops).queryType = some "UPDATE" := by
    rw [applyOps_state]
    simp [QueryBuilder.update, QueryBuilder.table, QueryBuilder.database, QueryBuilder.init]
  have hud : (applyOps (((QueryBuilder.init.database db).table t).update payload)
      ops).updateData = some payload := by
    rw [applyOps_state]
    simp [QueryBuilder.update, QueryBuilder.table, QueryBuilder.database, QueryBuilder.init]
  have hwc : (applyOps (((QueryBuilder.init.database db).table t).update payload)
      ops).whereConditions = (ops.map opWhereConds).flatten := by
    rw [applyOps_state]
    simp [QueryBuilder.update, QueryBuilder.table, QueryBuilder.database, QueryBuilder.init]
  have hpar : (applyOps (((QueryBuilder.init.database db).table t).update payload)
      ops).params = (ops.map opParamVals).flatten := by
    rw [applyOps_state]
    simp [QueryBuilder.update, QueryBuilder.table, QueryBuilder.database, QueryBuilder.init]
  have hdbt : (applyOps (((QueryBuilder.init.database db).table t).update payload)
      ops).databaseType = some (jsToLower db) := by
    rw [applyOps_state]
    simp [QueryBuilder.update, QueryBuilder.table, QueryBuilder.database, QueryBuilder.init]
  obtain ⟨w, hrw⟩ := renderedWhere_ok
    (applyOps (((QueryBuilder.init.database db).table t).update payload) ops)
    (by rw [hwc]; exact hthrow)
  have hsql : (applyOps (((QueryBuilder.init.database db).table t).update payload)
      ops).toSQL = buildUpdateQuery
        (applyOps (((QueryBuilder.init.database db).table t).update payload) ops) := by
    simp [QueryBuilder.toSQL, hqt, hdbt, isFalsyStr_lower_false db hdb]
  rw [hmap, hsql]
  unfold buildUpdateQuery
  rw [hud]
  simp [hrw, hpar, Except.toOption, Except.map]

/-- C6 witness: the amended statement at a concrete two-field update with
one where condition under the dollar-marker dialect. -/
theorem claim6_witness :
    (("postgresql" : String) ≠ "") ∧
    ((applyOps (((QueryBuilder.init.database "postgresql").table "users").update
          [("name", .str "J"), ("age", .num 25)])
        [.whereOp "id" "=" (.num 7)]).toSQL.toOption).map SqlResult.params
      = some ([("name", JsVal.str "J"), ("age", JsVal.num 25)].map Prod.snd ++
          ([BuildOp.whereOp "id" "=" (.num 7)].map opWhereVals).flatten) :=
  ⟨by decide, claim6_update_param_order "postgresql" "users" _ _ (by decide) (by decide)
    (by decide) (by decide)⟩

/-- C9 (amended): for every select intent with at least one having
condition, built from the condition-recording calls with balanced
where-operators (`where` / `orWhere` not invoked with the null-test or
`IN` / `NOT IN` operator strings, whose placeholder emission diverges from
their single parameter push), compilation succeeds under every dialect
with the recorded `this.params` as the parameter list; the having values
are part of that list but rendered literally — the select SQL ends with
the dialect-independent `HAVING` text interpolating each value — and the
list has exactly `whereMarkerCount` (the placeholders `_buildWhereClause`
emits) plus the number of having conditions entries, hence strictly more
entries than the SQL text has parameter markers. -/
theorem claim9_select_having (db t : String) (fields : List String)
    (ops : List BuildOp) (qb : QueryBuilder) (hdb : db ≠ "")
    (hqb : qb = applyOps (((QueryBuilder.init.database db).table t).select fields) ops)
    (hbal : ∀ o ∈ ops, opBalanced o = true)
    (o₀ : BuildOp) (ho : o₀ ∈ ops) (hhv : isHaving o₀ = true) :
    qb.toSQL.toOption.map SqlResult.params = some qb.params ∧
    qb.params.length = whereMarkerCount qb.whereConditions + qb.havingConditions.length ∧
    whereMarkerCount qb.whereConditions < qb.params.length ∧
    (∃ pre, qb.toSQL.toOption.map SqlResult.sql
      = some (pre ++ " HAVING " ++ buildHavingClause qb)) := by
  have hwc : qb.whereConditions = (ops.map opWhereConds).flatten := by
    rw [hqb, applyOps_state]
    simp [QueryBuilder.select, QueryBuilder.table, QueryBuilder.database, QueryBuilder.init]
  have hhc : qb.havingConditions = (ops.map opHavingConds).flatten := by
    rw [hqb, applyOps_state]
    simp [QueryBuilder.select, QueryBuilder.table, QueryBuilder.database, QueryBuilder.init]
  have hpar : qb.params = (ops.map opParamVals).flatten := by
    rw [hqb, applyOps_state]
    simp [QueryBuilder.select, QueryBuilder.table, QueryBuilder.database, QueryBuilder.init]
  have hqt : qb.queryType = some "SELECT" := by
    rw [hqb, applyOps_state]
    simp [QueryBuilder.select, QueryBuilder.table, QueryBuilder.database, QueryBuilder.init]
  have hdbt : qb.databaseType = some (jsToLower db) := by
    rw [hqb, applyOps_state]
    simp [QueryBuilder.select, QueryBuilder.table, QueryBuilder.database, QueryBuilder.init]
  have hgb : qb.groupByFields = [] := by
    rw [hqb, applyOps_state]
    simp [QueryBuilder.select, QueryBuilder.table, QueryBuilder.database, QueryBuilder.init]
  have hob : qb.orderByFields = [] := by
    rw [hqb, applyOps_state]
    simp [QueryBuilder.select, QueryBuilder.table, QueryBuilder.database, QueryBuilder.init]
  have hlv : qb.limitValue = none := by
    rw [hqb, applyOps_state]
    simp [QueryBuilder.select, QueryBuilder.table, QueryBuilder.database, QueryBuilder.init]
  have hhav : 0 < ((ops.map opHavingConds).flatten).length := by
    cases o₀ with
    | havingOp f op v =>
      have h1 : opHavingConds (.havingOp f op v) ∈ ops.map opHavingConds :=
        List.mem_map_of_mem _ ho
      have h2 : (⟨f, op, v, "AND"⟩ : HavingCond) ∈ (ops.map opHavingConds).flatten :=
        List.mem_flatten.mpr ⟨_, h1, by simp [opHavingConds]⟩
      exact List.length_pos.mpr (List.ne_nil_of_mem h2)
    | whereOp f op v => simp [isHaving] at hhv
    | orWhereOp f op v => simp [isHaving] at hhv
    | whereIn f vs => simp [isHaving] at hhv
    | whereNotIn f vs => simp [isHaving] at hhv
    | whereLike f p => simp [isHaving] at hhv
    | whereNull f => simp [isHaving] at hhv
    | whereNotNull f => simp [isHaving] at hhv
  have hlen := ops_param_length ops hbal
  have hfrag : limitOffsetFragment qb.limitValue qb.offsetValue = "" := by rw [hlv]; rfl
  have hthrow := ops_no_throw ops (fun o hoo => opBalanced_nullIn o (hbal o hoo))
  obtain ⟨w, hrw⟩ := renderedWhere_ok qb (by rw [hwc]; exact hthrow)
  have hsel : qb.toSQL = buildSelectQuery qb := by
    simp [QueryBuilder.toSQL, hqt, hdbt, isFalsyStr_lower_false db hdb]
  have hbs : buildSelectQuery qb =
      .ok ⟨selectCore qb w ++ limitOffsetFragment qb.limitValue qb.offsetValue,
        qb.params⟩ := by
    unfold buildSelectQuery
    rw [hrw]
    rfl
  refine ⟨?_, ?_, ?_, ?_⟩
  · rw [hsel, hbs]
    rfl
  · rw [hpar, hwc, hhc]
    exact hlen
  · rw [hpar, hwc]
    rw [hlen]
    omega
  · have hjc : qb.joinClauses = [] := by
      rw [hqb, applyOps_state]
      simp [QueryBuilder.select, QueryBuilder.table, QueryBuilder.database, QueryBuilder.init]
    have hsf : qb.selectFields = fields := by
      rw [hqb, applyOps_state]
      simp [QueryBuilder.select, QueryBuilder.table, QueryBuilder.database, QueryBuilder.init]
    have htn : qb.tableName = some t := by
      rw [hqb, applyOps_state]
      simp [QueryBuilder.select, QueryBuilder.table, QueryBuilder.database, QueryBuilder.init]
    refine ⟨if 0 < qb.whereConditions.length then
        "SELECT " ++ joinComma fields ++ " FROM " ++ t ++ " WHERE " ++ w
      else "SELECT " ++ joinComma fields ++ " FROM " ++ t, ?_⟩
    rw [hsel, hbs]
    simp only [Except.toOption, Option.map, Option.some.injEq]
    simp only [selectCore, hgb, hob, hjc, hsf, htn, hfrag, List.foldl_nil,
      List.length_nil, lt_self_iff_false, if_false, optStr]
    rw [hhc, if_pos hhav]
    simp

/-- C9 counterexample to the claim as stated over every query intent: an
insert intent carrying a having condition compiles with the having value
absent from the SQL and a parameter list (the payload values only) whose
length equals the number of markers — not strictly more. -/
theorem claim9_counterexample :
    ((((QueryBuilder.init.database "mysql").table "users").insert
        [("name", .str "x")]).havingOp "c" ">" (.num 1)).toSQL
      = .ok ⟨"INSERT INTO users (name) VALUES (?)", [.str "x"]⟩ ∧
    "INSERT INTO users (name) VALUES (?)".data.count '?'
      = ([JsVal.str "x"] : List JsVal).length := by decide

/-- C9 witness: the amended statement's parameter-count equation at a
concrete select with one where and one having condition. -/
theorem claim9_witness :
    (applyOps (((QueryBuilder.init.database "postgresql").table "users").select ["dept"])
        [.whereOp "age" ">" (.num 18), .havingOp "cnt" ">" (.num 5)]).params.length
      = whereMarkerCount (applyOps (((QueryBuilder.init.database "postgresql").table
          "users").select ["dept"])
          [.whereOp "age" ">" (.num 18), .havingOp "cnt" ">" (.num 5)]).whereConditions
        + (applyOps (((QueryBuilder.init.database "postgresql").table "users").select
          ["dept"])
          [.whereOp "age" ">" (.num 18), .havingOp "cnt" ">" (.num 5)]).havingConditions.length :=
  (claim9_select_having "postgresql" "users" ["dept"]
    [.whereOp "age" ">" (.num 18), .havingOp "cnt" ">" (.num 5)] _ (by decide) rfl
    (by decide) (.havingOp "cnt" ">" (.num 5)) (by decide) (by decide)).2.1

/-- C2 witness: the failure characterization at a concrete intent with a
dialect and table but no operation kind. -/
theorem claim2_witness :
    (∃ e, ((QueryBuilder.init.database "mysql").table "t").toSQL = .error e) ↔
      (isFalsyStr ((QueryBuilder.init.database "mysql").table "t").databaseType = true
        ∨ (((QueryBuilder.init.database "mysql").table "t").queryType ≠ some "SELECT"
            ∧ ((QueryBuilder.init.database "mysql").table "t").queryType ≠ some "INSERT"
            ∧ ((QueryBuilder.init.database "mysql").table "t").queryType ≠ some "UPDATE"
            ∧ ((QueryBuilder.init.database "mysql").table "t").queryType ≠ some "DELETE")
        ∨ (((QueryBuilder.init.database "mysql").table "t").queryType = some "INSERT"
            ∧ ((QueryBuilder.init.database "mysql").table "t").insertData = none)
        ∨ (((QueryBuilder.init.database "mysql").table "t").queryType = some "UPDATE"
            ∧ ((QueryBuilder.init.database "mysql").table "t").updateData = none)
        ∨ ((((QueryBuilder.init.database "mysql").table "t").queryType = some "SELECT"
              ∨ ((QueryBuilder.init.database "mysql").table "t").queryType = some "UPDATE"
              ∨ ((QueryBuilder.init.database "mysql").table "t").queryType = some "DELETE")
            ∧ whereThrows
                (((QueryBuilder.init.database "mysql").table "t").whereConditions) = true)) :=
  claim2_toSQL_error_iff _

/-- C4 witness: rollback at a concrete three-row candidate list whose
middle transform fails keeps only the leading prefix. -/
theorem claim4_witness :
    (rollbackRun (fun m => if m = "b" then .error "x" else .ok ()) ["c", "b", "a"] [] []).1 =
      ["c", "b", "a"].takeWhile
        (fun m => exOk ((fun m => if m = "b" then .error "x" else .ok ()) m)) :=
  (claim4_reset_attempts_all_rollback_stops _ _).2.2.2.1
